import Mathlib

/-!
Verification of the barnacleboy Sharp LR35902 emulator core.

Shallow embedding of `src/cpu.rs` and `src/debugger.rs`: machine bytes are
`Nat` values kept below 256 (with explicit `% 2^w` where the source wraps),
the register file is a Lean structure, and the fallible register-index
operations return `Option`.
-/

namespace Barnacleboy

/-! ## Opcode decoding (`src/cpu.rs`, `OpcodeBits` and `impl From<u8>`) -/

/-- The decoded opcode fields, mirroring `struct OpcodeBits` in `cpu.rs`. -/
structure OpcodeBits where
  x : Nat
  y : Nat
  z : Nat
  p : Nat
  q : Nat
deriving DecidableEq

/-- Embedding of `impl From<u8> for OpcodeBits` (`cpu.rs` lines 309-319):
masks and shifts exactly as the source writes them. -/
def OpcodeBits.fromByte (op : Nat) : OpcodeBits :=
  let x := (op &&& 0b11000000) >>> 6
  let y := (op &&& 0b00111000) >>> 3
  let z := op &&& 0b00000111
  let p := (y &&& 0b110) >>> 1
  let q := y &&& 0b001
  ⟨x, y, z, p, q⟩

/-- Embedding of `fn extract_x_y_z_p_q` (`debugger.rs` lines 508-518), the
disassembler's decoder. -/
def extract_x_y_z_p_q (opcode : Nat) : Nat × Nat × Nat × Nat × Nat :=
  let x := (opcode &&& 0b11000000) >>> 6
  let y := (opcode &&& 0b00111000) >>> 3
  let z := opcode &&& 0b00000111
  let p := (y &&& 0b00000110) >>> 1
  let q := y &&& 0b00000001
  (x, y, z, p, q)

/-! ## Register file (`src/cpu.rs`, `SharpLR35902Registers`) -/

/-- Zero flag bit, `F_ZERO` in `cpu.rs`. -/
def F_ZERO : Nat := 0b10000000
/-- Subtraction flag bit, `F_SUBTRACT` in `cpu.rs`. -/
def F_SUBTRACT : Nat := 0b01000000
/-- Half-carry flag bit, `F_HALFCARRY` in `cpu.rs`. -/
def F_HALFCARRY : Nat := 0b00100000
/-- Carry flag bit, `F_CARRY` in `cpu.rs`. -/
def F_CARRY : Nat := 0b00010000

/-- The Sharp LR35902 register file (`cpu.rs` lines 43-57, little-endian
variant). Fields are listed in the source's declaration order (`f` before `a`,
`c` before `b`, ...); each 8-bit field holds a value below 256 and `pc`/`sp`
hold values below 65536 wherever the source guarantees it. -/
structure SharpLR35902Registers where
  f : Nat
  a : Nat
  c : Nat
  b : Nat
  e : Nat
  d : Nat
  l : Nat
  h : Nat
  pc : Nat
  sp : Nat
deriving DecidableEq

/-- The 16-bit `af` view produced by `as_dwords` (`cpu.rs` lines 75-80): the
little-endian layout puts `f` at offset 0 and `a` at offset 1, so the u16 read
at offset 0 is `a * 256 + f` (the source's own `registers` test checks
a=0x11, f=0x22 gives af=0x1122). -/
def SharpLR35902Registers.af (r : SharpLR35902Registers) : Nat := r.a * 256 + r.f

/-- The 16-bit `bc` view produced by `as_dwords`. -/
def SharpLR35902Registers.bc (r : SharpLR35902Registers) : Nat := r.b * 256 + r.c

/-- The 16-bit `de` view produced by `as_dwords`. -/
def SharpLR35902Registers.de (r : SharpLR35902Registers) : Nat := r.d * 256 + r.e

/-- The 16-bit `hl` view produced by `as_dwords`. -/
def SharpLR35902Registers.hl (r : SharpLR35902Registers) : Nat := r.h * 256 + r.l

/-- Writing a u16 through the `as_dwords().af` view: the low byte lands in
`f` (offset 0) and the high byte in `a` (offset 1). -/
def SharpLR35902Registers.setAF (r : SharpLR35902Registers) (v : Nat) :
    SharpLR35902Registers :=
  { r with a := v % 65536 / 256, f := v % 256 }

/-- Writing a u16 through the `as_dwords().bc` view. -/
def SharpLR35902Registers.setBC (r : SharpLR35902Registers) (v : Nat) :
    SharpLR35902Registers :=
  { r with b := v % 65536 / 256, c := v % 256 }

/-- Writing a u16 through the `as_dwords().de` view. -/
def SharpLR35902Registers.setDE (r : SharpLR35902Registers) (v : Nat) :
    SharpLR35902Registers :=
  { r with d := v % 65536 / 256, e := v % 256 }

/-- Writing a u16 through the `as_dwords().hl` view. -/
def SharpLR35902Registers.setHL (r : SharpLR35902Registers) (v : Nat) :
    SharpLR35902Registers :=
  { r with h := v % 65536 / 256, l := v % 256 }

/-- `set_z` (`cpu.rs` line 83): `self.f |= F_ZERO`. -/
def SharpLR35902Registers.set_z (r : SharpLR35902Registers) : SharpLR35902Registers :=
  { r with f := r.f ||| F_ZERO }

/-- `set_s` (`cpu.rs` line 88): `self.f |= F_SUBTRACT`. -/
def SharpLR35902Registers.set_s (r : SharpLR35902Registers) : SharpLR35902Registers :=
  { r with f := r.f ||| F_SUBTRACT }

/-- `set_h` (`cpu.rs` line 93): `self.f |= F_HALFCARRY`. -/
def SharpLR35902Registers.set_h (r : SharpLR35902Registers) : SharpLR35902Registers :=
  { r with f := r.f ||| F_HALFCARRY }

/-- `set_c` (`cpu.rs` line 98): `self.f |= F_CARRY`. -/
def SharpLR35902Registers.set_c (r : SharpLR35902Registers) : SharpLR35902Registers :=
  { r with f := r.f ||| F_CARRY }

/-- `clear_z` (`cpu.rs` line 103): `self.f &= !F_ZERO`, the u8 complement of
`F_ZERO` being `255 ^^^ F_ZERO`. -/
def SharpLR35902Registers.clear_z (r : SharpLR35902Registers) : SharpLR35902Registers :=
  { r with f := r.f &&& (255 ^^^ F_ZERO) }

/-- `clear_s` (`cpu.rs` line 108). -/
def SharpLR35902Registers.clear_s (r : SharpLR35902Registers) : SharpLR35902Registers :=
  { r with f := r.f &&& (255 ^^^ F_SUBTRACT) }

/-- `clear_h` (`cpu.rs` line 113). -/
def SharpLR35902Registers.clear_h (r : SharpLR35902Registers) : SharpLR35902Registers :=
  { r with f := r.f &&& (255 ^^^ F_HALFCARRY) }

/-- `clear_c` (`cpu.rs` line 118). -/
def SharpLR35902Registers.clear_c (r : SharpLR35902Registers) : SharpLR35902Registers :=
  { r with f := r.f &&& (255 ^^^ F_CARRY) }

/-- `z` (`cpu.rs` line 123): test of the zero flag. -/
def SharpLR35902Registers.z (r : SharpLR35902Registers) : Bool :=
  r.f &&& F_ZERO == F_ZERO

/-- `s` (`cpu.rs` line 128): test of the subtraction flag. -/
def SharpLR35902Registers.s (r : SharpLR35902Registers) : Bool :=
  r.f &&& F_SUBTRACT == F_SUBTRACT

/-- `h` test of the half-carry flag (`cpu.rs` line 133). Named `hFlag` because
the register field `h` already uses the short name. -/
def SharpLR35902Registers.hFlag (r : SharpLR35902Registers) : Bool :=
  r.f &&& F_HALFCARRY == F_HALFCARRY

/-- `c` test of the carry flag (`cpu.rs` line 138). Named `cFlag` because the
register field `c` already uses the short name. -/
def SharpLR35902Registers.cFlag (r : SharpLR35902Registers) : Bool :=
  r.f &&& F_CARRY == F_CARRY

/-- Embedding of `impl Index<u8> for SharpLR35902Registers` (`cpu.rs` lines
155-171): indices 0..7 select b, c, d, e, h, l, f, a in that order; an
out-of-range index panics in the source, embedded as `none`. -/
def SharpLR35902Registers.regIndex (r : SharpLR35902Registers) : Nat → Option Nat
  | 0 => some r.b
  | 1 => some r.c
  | 2 => some r.d
  | 3 => some r.e
  | 4 => some r.h
  | 5 => some r.l
  | 6 => some r.f
  | 7 => some r.a
  | _ => none

/-- Embedding of `impl IndexMut<u8> for SharpLR35902Registers` (`cpu.rs` lines
173-187) used as the target of an assignment. -/
def SharpLR35902Registers.regIndexSet (r : SharpLR35902Registers) (i v : Nat) :
    Option SharpLR35902Registers :=
  match i with
  | 0 => some { r with b := v }
  | 1 => some { r with c := v }
  | 2 => some { r with d := v }
  | 3 => some { r with e := v }
  | 4 => some { r with h := v }
  | 5 => some { r with l := v }
  | 6 => some { r with f := v }
  | 7 => some { r with a := v }
  | _ => none

/-- Embedding of `impl Index<u8> for DWordRegisters` (`cpu.rs` lines 189-201)
through the `as_dwords` view: indices 0..3 select bc, de, hl, af; an
out-of-range index panics in the source, embedded as `none`. -/
def dwordIndex (r : SharpLR35902Registers) : Nat → Option Nat
  | 0 => some r.bc
  | 1 => some r.de
  | 2 => some r.hl
  | 3 => some r.af
  | _ => none

/-- Embedding of `fn ld_r_r` (`cpu.rs` lines 327-332):
`cpu.registers[bits.y] = cpu.registers[bits.z]`. The source performs no
memory access at all, which the pure type of this embedding reflects. -/
def ld_r_r (r : SharpLR35902Registers) (opcode : Nat) : Option SharpLR35902Registers :=
  let bits := OpcodeBits.fromByte opcode
  (r.regIndex bits.z).bind fun v => r.regIndexSet bits.y v

/-! ## CPU errors and instruction fetch (`src/cpu.rs`) -/

/-- Embedding of `enum LRError` (`cpu.rs` lines 217-220). -/
inductive LRError where
  | InvalidMemoryRead (addr : Nat)
  | InvalidMemoryWrite (addr : Nat)
deriving DecidableEq

/-- The MemoryInterface read contract (spec section 6): an unmapped address
fails with `InvalidMemoryRead(address)`. The memory map itself is the
external collaborator, modelled as `Nat → Option Nat`. -/
def memRead (mem : Nat → Option Nat) (addr : Nat) : Except LRError Nat :=
  match mem addr with
  | some v => Except.ok v
  | none => Except.error (LRError.InvalidMemoryRead addr)

/-- Embedding of `fn read_instruction_byte` (`cpu.rs` lines 271-276): the
program counter is incremented (u16 wrap-around made explicit with
`% 65536`) before the memory read is attempted at the old `pc`; the read's
result, success or error, is returned alongside the updated registers. -/
def read_instruction_byte (r : SharpLR35902Registers) (mem : Nat → Option Nat) :
    SharpLR35902Registers × Except LRError Nat :=
  let pc := r.pc
  let r2 := { r with pc := (pc + 1) % 65536 }
  (r2, memRead mem pc)

/-! ## Disassembler (`src/debugger.rs`, `Debugger::disassemble`) -/

/-- `R_STR` (`debugger.rs` line 211): 8-bit register names by index. -/
def R_STR : List String := ["b", "c", "d", "e", "h", "l", "(hl)", "a"]

/-- `RP_STR` (`debugger.rs` line 213): pair names for general pair operands. -/
def RP_STR : List String := ["bc", "de", "hl", "sp"]

/-- `RP2_STR` (`debugger.rs` line 215): pair names for push/pop operands. -/
def RP2_STR : List String := ["bc", "de", "hl", "af"]

/-- `CC_STR` (`debugger.rs` line 217): condition suffixes (leading space as in
the source). -/
def CC_STR : List String := [" nz", " z", " nc", " c"]

/-- `ALU_STR` (`debugger.rs` lines 219-228). -/
def ALU_STR : List String := ["add a,", "adc a,", "sub", "sbc a,", "and", "xor", "or", "cp"]

/-- `ROT_STR` (`debugger.rs` line 230). -/
def ROT_STR : List String := ["rlc", "rrc", "rl", "rr", "sla", "sra", "swap", "srl"]

/-- Static-table lookup. The source indexes these tables with values that are
below the table length by construction of the decode; the default is never
reached on byte inputs. -/
def getStr (xs : List String) (i : Nat) : String := xs.getD i ""

/-- Rust `format!` with `{:x}`: lowercase hexadecimal, no padding. -/
def hexStr (n : Nat) : String := String.mk (Nat.toDigits 16 n)

/-- Display of a u8 bit pattern reinterpreted as `i8` (Rust `bytes[1] as i8`),
as printed by `format!` with `{}`. -/
def i8Str (n : Nat) : String :=
  if n < 128 then Nat.repr n else "-" ++ Nat.repr (256 - n)

/-- Embedding of `Debugger::disassemble` (`debugger.rs` lines 210-505) on the
three bytes it fetches at `addr`, `addr+1`, `addr+2`. The match arms appear in
the source's order; range patterns are expanded into alternatives; a source
arm that recomputes `extract_x_y_z_p_q(bytes[0])` reuses the outer fields,
which are the same values. Returns (mnemonic, instruction length). -/
def disassemble (b0 b1 b2 : Nat) : String × Nat :=
  let t := extract_x_y_z_p_q b0
  let x := t.1
  let y := t.2.1
  let z := t.2.2.1
  let p := t.2.2.2.1
  let q := t.2.2.2.2
  let nn := (b2 <<< 8) ||| (0x00FF &&& b1)
  match x, y, z, p, q with
  | 0, 0, 0, _, _ => ("nop", 1)
  | 0, 1, 0, _, _ => ("ld (0x" ++ hexStr nn ++ "), sp", 3)
  | 0, 2, 0, _, _ => ("stop", 1)
  | 0, 3, 0, _, _ => ("jr " ++ Nat.repr b1, 2)
  | 0, 4, 0, _, _ | 0, 5, 0, _, _ | 0, 6, 0, _, _ | 0, 7, 0, _, _ =>
      ("jr" ++ getStr CC_STR (y - 4) ++ " " ++ Nat.repr b1, 2)
  | 0, _, 1, _, 0 => ("ld " ++ getStr RP_STR p ++ ", 0x" ++ hexStr nn, 3)
  | 0, _, 1, _, 1 => ("add hl, " ++ getStr RP_STR p, 1)
  | 0, _, 2, 0, 0 => ("ld (bc), a", 1)
  | 0, _, 2, 1, 0 => ("ld (de), a", 1)
  | 0, _, 2, 2, 0 => ("ld (hl+), a", 1)
  | 0, _, 2, 3, 0 => ("ld (hl-), a", 1)
  | 0, _, 2, 0, 1 => ("ld a, (bc)", 1)
  | 0, _, 2, 1, 1 => ("ld a, (de)", 1)
  | 0, _, 2, 2, 1 => ("ld a, (hl+)", 1)
  | 0, _, 2, 3, 1 => ("ld a, (hl-)", 1)
  | 0, _, 3, _, 0 => ("inc " ++ getStr RP_STR p, 1)
  | 0, _, 3, _, 1 => ("dec " ++ getStr RP_STR p, 1)
  | 0, _, 4, _, _ => ("inc " ++ getStr R_STR y, 1)
  | 0, _, 5, _, _ => ("dec " ++ getStr R_STR y, 1)
  | 0, _, 6, _, _ => ("ld " ++ getStr R_STR y ++ ", 0x" ++ hexStr b1, 2)
  | 0, 0, 7, _, _ => ("rlca", 1)
  | 0, 1, 7, _, _ => ("rrca", 1)
  | 0, 2, 7, _, _ => ("rla", 1)
  | 0, 3, 7, _, _ => ("rra", 1)
  | 0, 4, 7, _, _ => ("daa", 1)
  | 0, 5, 7, _, _ => ("cpl", 1)
  | 0, 6, 7, _, _ => ("scf", 1)
  | 0, 7, 7, _, _ => ("ccf", 1)
  | 1, 6, 6, _, _ => ("halt", 1)
  | 1, _, _, _, _ => ("ld " ++ getStr R_STR y ++ ", " ++ getStr R_STR z, 1)
  | 2, _, _, _, _ => (getStr ALU_STR y ++ " " ++ getStr R_STR z, 1)
  | 3, 0, 0, _, _ | 3, 1, 0, _, _ | 3, 2, 0, _, _ | 3, 3, 0, _, _ =>
      ("ret " ++ getStr CC_STR y, 1)
  | 3, 4, 0, _, _ => ("ld 0xff00+0x" ++ hexStr b1 ++ ", a", 2)
  | 3, 5, 0, _, _ => ("add sp, " ++ i8Str b1, 2)
  | 3, 6, 0, _, _ => ("ld a, 0xff00+0x" ++ hexStr b1, 2)
  | 3, 7, 0, _, _ => ("ld hl, sp+" ++ i8Str b1, 2)
  | 3, _, 1, _, 0 => ("pop " ++ getStr RP2_STR p, 1)
  | 3, _, 1, 0, 1 => ("ret", 1)
  | 3, _, 1, 1, 1 => ("reti", 1)
  | 3, _, 1, 2, 1 => ("jp (hl)", 1)
  | 3, _, 1, 3, 1 => ("ld sp, hl", 1)
  | 3, 0, 2, _, _ | 3, 1, 2, _, _ | 3, 2, 2, _, _ | 3, 3, 2, _, _ =>
      ("jp " ++ getStr CC_STR y ++ " " ++ Nat.repr nn, 2)
  | 3, 4, 2, _, _ => ("ld (0xff00+c), a", 1)
  | 3, 5, 2, _, _ => ("ld (" ++ hexStr nn ++ "), a", 3)
  | 3, 6, 2, _, _ => ("ld a, (0xff00+c)", 1)
  | 3, 7, 2, _, _ => ("ld a, (" ++ hexStr nn ++ ")", 3)
  | 3, 0, 3, _, _ => ("jp " ++ hexStr nn, 3)
  | 3, 1, 3, _, _ =>
      let t2 := extract_x_y_z_p_q b1
      let x2 := t2.1
      let y2 := t2.2.1
      let z2 := t2.2.2.1
      match x2 with
      | 0 => (getStr ROT_STR y2 ++ " " ++ getStr R_STR z2, 2)
      | 1 => ("bit " ++ Nat.repr y2 ++ ", " ++ getStr R_STR z2, 2)
      | 2 => ("res " ++ Nat.repr y2 ++ ", " ++ getStr R_STR z2, 2)
      | 3 => ("set " ++ Nat.repr y2 ++ ", " ++ getStr R_STR z2, 2)
      | _ => ("Unknown prefixed op", 2)
  | 3, 2, 3, _, _ | 3, 3, 3, _, _ | 3, 4, 3, _, _ | 3, 5, 3, _, _ => ("nop", 1)
  | 3, 6, 3, _, _ => ("di", 1)
  | 3, 7, 3, _, _ => ("ei", 1)
  | 3, 0, 4, _, _ | 3, 1, 4, _, _ | 3, 2, 4, _, _ | 3, 3, 4, _, _ =>
      ("call " ++ getStr CC_STR y ++ " 0x" ++ hexStr nn, 3)
  | 3, _, 5, _, 0 => ("push " ++ getStr RP2_STR p, 1)
  | 3, _, 5, 0, 1 => ("call 0x" ++ hexStr nn, 3)
  | 3, _, 6, _, _ => (getStr ALU_STR y ++ " " ++ hexStr b1, 2)
  | 3, _, 7, _, _ => ("rst 0x" ++ hexStr (y * 8), 1)
  | _, _, _, _, _ => ("nop", 1)

/-! ## Cycle-bounded execution (`Cpu::execute_with_cycles`) -/

/-- Modelled from the spec: `execute_with_cycles` and `step` in `src/cpu.rs`
are `unimplemented!()` — only their declarations exist — so the loop is
modelled from spec section 4.4: "runs `step()` repeatedly, accumulating
reported cycle costs, until the accumulated total is at least `bound`, then
returns". `costs i` is the cycle cost `step()` reports for the i-th executed
instruction; `fuel` bounds the recursion and exhausting it yields `none`
(with every per-instruction cost positive, fuel `bound` is never exhausted).
Returns (instructions executed, accumulated cycles). -/
def execute_with_cycles_go (costs : Nat → Nat) (bound : Nat) :
    Nat → Nat → Nat → Option (Nat × Nat)
  | 0, i, acc => if bound ≤ acc then some (i, acc) else none
  | fuel + 1, i, acc =>
      if bound ≤ acc then some (i, acc)
      else execute_with_cycles_go costs bound fuel (i + 1) (acc + costs i)

/-- Modelled from the spec: the entry point of the section 4.4 loop, starting
from zero executed instructions and zero accumulated cycles. -/
def execute_with_cycles (costs : Nat → Nat) (bound : Nat) : Option (Nat × Nat) :=
  execute_with_cycles_go costs bound bound 0 0

/-! ## Shared sample state for witnesses -/

/-- A register file with pairwise-distinct field values, so that theorems
instantiated at it cannot hold by accidental coincidences:
f=1, a=2, c=3, b=4, e=5, d=6, l=7, h=8, pc=9, sp=10. -/
def sampleRegs : SharpLR35902Registers := ⟨1, 2, 3, 4, 5, 6, 7, 8, 9, 10⟩

/-! ## Claim theorems -/

set_option maxRecDepth 10000 in
/-- Claim C1: for every opcode byte (all 256 values), the execution engine's
decoder (`OpcodeBits::from`) and the disassembler's decoder
(`extract_x_y_z_p_q`) produce identical field tuples (x, y, z, p, q). -/
theorem decoders_agree :
    ∀ b : Fin 256,
      ((OpcodeBits.fromByte b.val).x, (OpcodeBits.fromByte b.val).y,
        (OpcodeBits.fromByte b.val).z, (OpcodeBits.fromByte b.val).p,
        (OpcodeBits.fromByte b.val).q) = extract_x_y_z_p_q b.val := by
  decide

/-- Claim C2: for each register pair AF, BC, DE, HL, writing the two 8-bit
constituent registers then reading the 16-bit pair view gives
`high * 256 + low` with the first-named register high; writing a 16-bit value
through the pair view then reading the constituents gives the high/low split,
and the pair view reads back the written value; and a single-register
mutation is immediately visible through the pair view. -/
theorem register_pair_roundtrip (r : SharpLR35902Registers) (hi lo v : Nat)
    (_hhi : hi < 256) (_hlo : lo < 256) (hv : v < 65536) :
    ({ r with a := hi, f := lo } : SharpLR35902Registers).af = hi * 256 + lo ∧
    (r.setAF v).a = v / 256 ∧ (r.setAF v).f = v % 256 ∧ (r.setAF v).af = v ∧
    ({ r with b := hi, c := lo } : SharpLR35902Registers).bc = hi * 256 + lo ∧
    (r.setBC v).b = v / 256 ∧ (r.setBC v).c = v % 256 ∧ (r.setBC v).bc = v ∧
    ({ r with d := hi, e := lo } : SharpLR35902Registers).de = hi * 256 + lo ∧
    (r.setDE v).d = v / 256 ∧ (r.setDE v).e = v % 256 ∧ (r.setDE v).de = v ∧
    ({ r with h := hi, l := lo } : SharpLR35902Registers).hl = hi * 256 + lo ∧
    (r.setHL v).h = v / 256 ∧ (r.setHL v).l = v % 256 ∧ (r.setHL v).hl = v ∧
    ({ r with a := hi } : SharpLR35902Registers).af = hi * 256 + r.f ∧
    ({ r with f := lo } : SharpLR35902Registers).af = r.a * 256 + lo := by
  refine ⟨?_, ?_, ?_, ?_, ?_, ?_, ?_, ?_, ?_, ?_, ?_, ?_, ?_, ?_, ?_, ?_, ?_, ?_⟩ <;>
      simp [SharpLR35902Registers.af, SharpLR35902Registers.bc, SharpLR35902Registers.de,
        SharpLR35902Registers.hl, SharpLR35902Registers.setAF, SharpLR35902Registers.setBC,
        SharpLR35902Registers.setDE, SharpLR35902Registers.setHL] <;>
    omega

/-- Witness for C2 at register values 0x11, 0x22 and pair value 0x1234. -/
theorem register_pair_roundtrip_witness :
    ({ sampleRegs with a := 17, f := 34 } : SharpLR35902Registers).af = 17 * 256 + 34 ∧
    (sampleRegs.setAF 4660).a = 4660 / 256 ∧ (sampleRegs.setAF 4660).f = 4660 % 256 ∧
    (sampleRegs.setAF 4660).af = 4660 ∧
    ({ sampleRegs with b := 17, c := 34 } : SharpLR35902Registers).bc = 17 * 256 + 34 ∧
    (sampleRegs.setBC 4660).b = 4660 / 256 ∧ (sampleRegs.setBC 4660).c = 4660 % 256 ∧
    (sampleRegs.setBC 4660).bc = 4660 ∧
    ({ sampleRegs with d := 17, e := 34 } : SharpLR35902Registers).de = 17 * 256 + 34 ∧
    (sampleRegs.setDE 4660).d = 4660 / 256 ∧ (sampleRegs.setDE 4660).e = 4660 % 256 ∧
    (sampleRegs.setDE 4660).de = 4660 ∧
    ({ sampleRegs with h := 17, l := 34 } : SharpLR35902Registers).hl = 17 * 256 + 34 ∧
    (sampleRegs.setHL 4660).h = 4660 / 256 ∧ (sampleRegs.setHL 4660).l = 4660 % 256 ∧
    (sampleRegs.setHL 4660).hl = 4660 ∧
    ({ sampleRegs with a := 17 } : SharpLR35902Registers).af = 17 * 256 + sampleRegs.f ∧
    ({ sampleRegs with f := 34 } : SharpLR35902Registers).af = sampleRegs.a * 256 + 34 :=
  register_pair_roundtrip sampleRegs 17 34 4660 (by decide) (by decide) (by decide)

/-- Counterexample for C3: on the documented illegal base opcode 0xD3
(x=3, z=3, y=2) `disassemble` returns the mnemonic "nop", not an explicit
"undefined opcode" label. -/
theorem illegal_opcode_not_undefined :
    (disassemble 0xD3 0 0).1 = "nop" ∧ (disassemble 0xD3 0 0).2 = 1 ∧
    (disassemble 0xD3 0 0).1 ≠ "undefined opcode" := by
  decide

set_option maxRecDepth 10000 in
/-- Claim C3 (amended): the documented illegal base opcode slots at x=3, z=3,
y=2..5 (0xD3, 0xDB, 0xE3, 0xEB) disassemble to the mnemonic "nop" of length
1 — a silent no-op, not an explicit "undefined opcode" marker — and no base
opcode ever yields the mnemonic "undefined opcode"; valid opcodes still get
their own specific mnemonics (nop, ld a, jp fixtures). -/
theorem illegal_opcodes_nop :
    (∀ b1 b2 : Nat,
      disassemble 0xD3 b1 b2 = ("nop", 1) ∧ disassemble 0xDB b1 b2 = ("nop", 1) ∧
      disassemble 0xE3 b1 b2 = ("nop", 1) ∧ disassemble 0xEB b1 b2 = ("nop", 1)) ∧
    (∀ b : Fin 256, (disassemble b.val 0 0).1 ≠ "undefined opcode") ∧
    disassemble 0x00 0 0 = ("nop", 1) ∧
    disassemble 0x3E 0x42 0 = ("ld a, 0x42", 2) ∧
    disassemble 0xC3 0x34 0x12 = ("jp 1234", 3) := by
  refine ⟨fun b1 b2 => ⟨rfl, rfl, rfl, rfl⟩, by decide, by decide, by decide, by decide⟩

/-- Claim C4 (code bug): `ld_r_r` treats selector 6 as the flags register,
not as memory at HL. Opcode 0x70 (LD (HL),B: x=1, y=6, z=0) with B=0x42
copies 0x42 into F; opcode 0x7E (LD A,(HL): x=1, y=7, z=6) with F=7 copies
7 into A. The pure register-to-register type of `ld_r_r` reflects that the
source performs no memory access at all. -/
theorem ld_r_r_writes_flags_register :
    ld_r_r ⟨0, 0, 0, 0x42, 0, 0, 0, 0, 0, 0⟩ 0x70 =
      some ⟨0x42, 0, 0, 0x42, 0, 0, 0, 0, 0, 0⟩ ∧
    ld_r_r ⟨7, 0xAA, 0, 0, 0, 0, 0, 0, 0, 0⟩ 0x7E =
      some ⟨7, 7, 0, 0, 0, 0, 0, 0, 0, 0⟩ := by
  decide

/-- Counterexample for C5: the register file's 16-bit pair index maps index 3
to AF, not SP: with A=0xAB, F=0xCD, SP=0x1234, indexing pair 3 yields 0xABCD,
which is AF and differs from SP. -/
theorem dword_index_three_af_not_sp :
    dwordIndex ⟨0xCD, 0xAB, 0, 0, 0, 0, 0, 0, 0, 0x1234⟩ 3 = some 0xABCD ∧
    (0xABCD : Nat) ≠ 0x1234 := by
  decide

/-- Claim C5 (amended): the register file exposes a single pair-index table
mapping 0..3 to BC, DE, HL, AF (index 3 is AF, not SP); the two-table scheme
lives only in the disassembler, whose RP table (general pair operands) maps
0..3 to bc, de, hl, sp and RP2 table (push/pop operands) maps 0..3 to
bc, de, hl, af, as the p=3 opcodes show. -/
theorem pair_selection_tables :
    (∀ r : SharpLR35902Registers,
      dwordIndex r 0 = some r.bc ∧ dwordIndex r 1 = some r.de ∧
      dwordIndex r 2 = some r.hl ∧ dwordIndex r 3 = some r.af) ∧
    getStr RP_STR 3 = "sp" ∧ getStr RP2_STR 3 = "af" ∧
    disassemble 0x31 0x34 0x12 = ("ld sp, 0x1234", 3) ∧
    disassemble 0x39 0 0 = ("add hl, sp", 1) ∧
    disassemble 0xF1 0 0 = ("pop af", 1) ∧
    disassemble 0xF5 0 0 = ("push af", 1) := by
  exact ⟨fun r => ⟨rfl, rfl, rfl, rfl⟩, rfl, rfl, by decide, by decide, by decide, by decide⟩

/-- The section 4.4 loop returns within `fuel` iterations whenever every
instruction costs at least one cycle and the fuel covers the remaining
cycle budget, with the accumulated total at least the bound on return. -/
theorem execute_with_cycles_go_spec (costs : Nat → Nat) (bound : Nat)
    (hc : ∀ j, 1 ≤ costs j) :
    ∀ fuel i acc, bound ≤ acc + fuel →
      ∃ n a, execute_with_cycles_go costs bound fuel i acc = some (n, a) ∧
        i ≤ n ∧ bound ≤ a ∧ (acc < bound → i < n) := by
  intro fuel
  induction fuel with
  | zero =>
    intro i acc hle
    refine ⟨i, acc, ?_, le_refl i, by omega, fun hlt => absurd hle (by omega)⟩
    simp only [execute_with_cycles_go, if_pos (by omega : bound ≤ acc)]
  | succ fuel ih =>
    intro i acc hle
    by_cases hb : bound ≤ acc
    · refine ⟨i, acc, ?_, le_refl i, hb, fun hlt => absurd hb (by omega)⟩
      simp only [execute_with_cycles_go, if_pos hb]
    · have h2 : bound ≤ (acc + costs i) + fuel := by
        have := hc i
        omega
      obtain ⟨n, a, heq, hin, hba, _⟩ := ih (i + 1) (acc + costs i) h2
      refine ⟨n, a, ?_, by omega, hba, fun _ => by omega⟩
      simp only [execute_with_cycles_go, if_neg hb]
      exact heq

/-- Claim C6: for every bound > 0, with every per-instruction cycle cost
reported by `step()` positive (as on the modelled Running CPU), the
spec-modelled `execute_with_cycles` returns having executed at least one
instruction, and the accumulated cycle total on return is at least the
bound (the final instruction may overshoot; no instruction is split). -/
theorem execute_with_cycles_progress (costs : Nat → Nat) (bound : Nat)
    (hb : 0 < bound) (hc : ∀ j, 1 ≤ costs j) :
    ∃ n a, execute_with_cycles costs bound = some (n, a) ∧ 1 ≤ n ∧ bound ≤ a := by
  obtain ⟨n, a, heq, _, hba, hlt⟩ :=
    execute_with_cycles_go_spec costs bound hc bound 0 0 (by omega)
  exact ⟨n, a, heq, hlt hb, hba⟩

/-- Witness for C6: with a uniform cost of 4 cycles and bound 10 the loop
executes at least one instruction and accumulates at least 10 cycles
(concretely it returns `some (3, 12)`). -/
theorem execute_with_cycles_progress_witness :
    ∃ n a, execute_with_cycles (fun _ => 4) 10 = some (n, a) ∧ 1 ≤ n ∧ 10 ≤ a :=
  execute_with_cycles_progress (fun _ => 4) 10 (by decide) (fun j => (by decide : (1 : Nat) ≤ 4))

set_option maxRecDepth 10000 in
/-- Claim C7: the decoder produces x = bits 7-6, y = bits 5-3, z = bits 2-0,
p = bits 5-4 (top two bits of y), q = bit 3 (low bit of y) for every opcode
byte, and on byte 0b10101010 yields x=2, y=5, z=2, p=2, q=1. -/
theorem opcode_field_layout :
    (∀ b : Fin 256,
      (OpcodeBits.fromByte b.val).x = b.val / 64 ∧
      (OpcodeBits.fromByte b.val).y = b.val / 8 % 8 ∧
      (OpcodeBits.fromByte b.val).z = b.val % 8 ∧
      (OpcodeBits.fromByte b.val).p = b.val / 16 % 4 ∧
      (OpcodeBits.fromByte b.val).q = b.val / 8 % 2) ∧
    OpcodeBits.fromByte 0b10101010 = ⟨2, 5, 2, 2, 1⟩ := by
  decide

/-- Claim C8 (code bug): the conditional absolute jumps jp cc,nn (opcodes
0xC2, 0xCA, 0xD2, 0xDA) disassemble with length 2, although the arm itself
formats a two-byte immediate operand and every other 16-bit-immediate
opcode (jp nn, ld rp,nn, call nn, call cc,nn, ld (nn),sp) reports length 3. -/
theorem jp_cc_length_mismatch :
    (disassemble 0xC2 0x34 0x12).2 = 2 ∧ (disassemble 0xCA 0x34 0x12).2 = 2 ∧
    (disassemble 0xD2 0x34 0x12).2 = 2 ∧ (disassemble 0xDA 0x34 0x12).2 = 2 ∧
    (disassemble 0xC2 0x34 0x12).1 = "jp  nz 4660" ∧
    (disassemble 0xC3 0x34 0x12).2 = 3 ∧ (disassemble 0x01 0x34 0x12).2 = 3 ∧
    (disassemble 0xCD 0x34 0x12).2 = 3 ∧ (disassemble 0xC4 0x34 0x12).2 = 3 ∧
    (disassemble 0x08 0x34 0x12).2 = 3 := by
  decide

/-- Counterexample for C9: executing LD (HL),B (opcode 0x70) through
`ld_r_r` with B=1 writes 1 into the flags register, so a state whose F has a
nonzero low nibble is reachable. -/
theorem flags_low_nibble_violated :
    ld_r_r ⟨0, 0, 0, 1, 0, 0, 0, 0, 0, 0⟩ 0x70 = some ⟨1, 0, 0, 1, 0, 0, 0, 0, 0, 0⟩ ∧
    (1 : Nat) % 16 ≠ 0 := by
  decide

set_option maxRecDepth 10000 in
/-- Claim C9 (amended): the dedicated flag set/clear operations only touch
bits 7-4 and so preserve a zero low nibble of F, for every byte-valued F
with zero low nibble; but the invariant does not extend to every executed
instruction — `ld_r_r` writes targeting index 6 store an arbitrary register
value into F verbatim. -/
theorem flag_ops_preserve_low_nibble :
    ∀ f0 : Fin 256, f0.val % 16 = 0 →
      (SharpLR35902Registers.mk f0.val 0 0 0 0 0 0 0 0 0).set_z.f % 16 = 0 ∧
      (SharpLR35902Registers.mk f0.val 0 0 0 0 0 0 0 0 0).set_s.f % 16 = 0 ∧
      (SharpLR35902Registers.mk f0.val 0 0 0 0 0 0 0 0 0).set_h.f % 16 = 0 ∧
      (SharpLR35902Registers.mk f0.val 0 0 0 0 0 0 0 0 0).set_c.f % 16 = 0 ∧
      (SharpLR35902Registers.mk f0.val 0 0 0 0 0 0 0 0 0).clear_z.f % 16 = 0 ∧
      (SharpLR35902Registers.mk f0.val 0 0 0 0 0 0 0 0 0).clear_s.f % 16 = 0 ∧
      (SharpLR35902Registers.mk f0.val 0 0 0 0 0 0 0 0 0).clear_h.f % 16 = 0 ∧
      (SharpLR35902Registers.mk f0.val 0 0 0 0 0 0 0 0 0).clear_c.f % 16 = 0 := by
  decide

/-- Witness for C9 (amended) at F = 0x20 (half-carry set, low nibble zero). -/
theorem flag_ops_preserve_low_nibble_witness :
    (32 : Fin 256).val % 16 = 0 ∧
    ((SharpLR35902Registers.mk (32 : Fin 256).val 0 0 0 0 0 0 0 0 0).set_z.f % 16 = 0 ∧
      (SharpLR35902Registers.mk (32 : Fin 256).val 0 0 0 0 0 0 0 0 0).set_s.f % 16 = 0 ∧
      (SharpLR35902Registers.mk (32 : Fin 256).val 0 0 0 0 0 0 0 0 0).set_h.f % 16 = 0 ∧
      (SharpLR35902Registers.mk (32 : Fin 256).val 0 0 0 0 0 0 0 0 0).set_c.f % 16 = 0 ∧
      (SharpLR35902Registers.mk (32 : Fin 256).val 0 0 0 0 0 0 0 0 0).clear_z.f % 16 = 0 ∧
      (SharpLR35902Registers.mk (32 : Fin 256).val 0 0 0 0 0 0 0 0 0).clear_s.f % 16 = 0 ∧
      (SharpLR35902Registers.mk (32 : Fin 256).val 0 0 0 0 0 0 0 0 0).clear_h.f % 16 = 0 ∧
      (SharpLR35902Registers.mk (32 : Fin 256).val 0 0 0 0 0 0 0 0 0).clear_c.f % 16 = 0) :=
  ⟨by decide, flag_ops_preserve_low_nibble 32 (by decide)⟩

/-- Claim C10: the instruction-byte fetch increments PC (with the u16
wrap-around explicit) before attempting the memory read, so when the read
fails the error `InvalidMemoryRead` carries the old PC while the registers
already hold PC+1 — and strictly past the faulting address whenever the old
PC is below 0xFFFF. The fetch is not atomic with respect to PC on error. -/
theorem read_instruction_byte_pc_advanced (r : SharpLR35902Registers)
    (mem : Nat → Option Nat) (hm : mem r.pc = none) :
    (read_instruction_byte r mem).2 = Except.error (LRError.InvalidMemoryRead r.pc) ∧
    (read_instruction_byte r mem).1.pc = (r.pc + 1) % 65536 ∧
    (r.pc < 65535 → (read_instruction_byte r mem).1.pc = r.pc + 1) := by
  refine ⟨?_, rfl, ?_⟩
  · simp [read_instruction_byte, memRead, hm]
  · intro h
    simp only [read_instruction_byte]
    omega

/-- Witness for C10 at the sample registers (PC = 9) over memory that rejects
every read. -/
theorem read_instruction_byte_pc_advanced_witness :
    (read_instruction_byte sampleRegs (fun _ => none)).2 =
      Except.error (LRError.InvalidMemoryRead sampleRegs.pc) ∧
    (read_instruction_byte sampleRegs (fun _ => none)).1.pc = (sampleRegs.pc + 1) % 65536 ∧
    (sampleRegs.pc < 65535 →
      (read_instruction_byte sampleRegs (fun _ => none)).1.pc = sampleRegs.pc + 1) :=
  read_instruction_byte_pc_advanced sampleRegs (fun _ => none) rfl

end Barnacleboy
